import Mathlib

/-!
Shallow embedding of the ONVIF camera platform
(`homeassistant/components/onvif/camera.py`): directional normalization of
PTZ service data, profile-token resolution, stream-URI resolution and the
PTZ command engine, modelled as pure functions over an explicit camera
state and an environment describing the camera's responses.  Network calls
and log statements are recorded as events in a trace; a Python exception
that escapes a function (an `IndexError` is the only one these paths can
raise past the `except` clauses of the source) is modelled by an
`Except.error` result or `raised` flag.  Floating-point configuration
values are modelled as rationals.
-/

namespace OnvifCamera

/-- The constant `STEP = 20` used by directional normalization. -/
def STEP : Int := 20

/-- One axis of the inbound PTZ service data: a direction token string, an
integer magnitude, or absent (`None` in the source). -/
inductive AxisInput where
  | dir (s : String)
  | num (n : Int)
  | absent
deriving DecidableEq, Repr

/-- Python truthiness of an axis value (`not pan`): a string is truthy iff
non-empty, an integer iff non-zero, `None` is falsy. -/
def axisTruthy : AxisInput → Bool
  | .dir s => !s.isEmpty
  | .num n => !(n == 0)
  | .absent => false

/-- One chained-conditional normalization line of `async_handle_ptz`
(`-STEP if v == neg else STEP if v == pos else 0 if v == "NONE" or not v
else v`). -/
def normalizeAxis (neg pos : String) (a : AxisInput) : AxisInput :=
  if a = .dir neg then .num (-STEP)
  else if a = .dir pos then .num STEP
  else if a = .dir "NONE" ∨ axisTruthy a = false then .num 0
  else a

/-- Normalization of the `pan` field (line `pan = -STEP if pan == DIR_LEFT
else STEP if pan == DIR_RIGHT else ...`). -/
def normalizePan : AxisInput → AxisInput := normalizeAxis "LEFT" "RIGHT"

/-- Normalization of the `tilt` field (`DOWN` negative, `UP` positive). -/
def normalizeTilt : AxisInput → AxisInput := normalizeAxis "DOWN" "UP"

/-- Normalization of the `zoom` field (`ZOOM_OUT` negative, `ZOOM_IN`
positive). -/
def normalizeZoom : AxisInput → AxisInput := normalizeAxis "ZOOM_OUT" "ZOOM_IN"

/-- The integer value of a normalized axis, when normalization produced an
integer (it always does on schema-valid service data). -/
def axisIntVal : AxisInput → Option Int
  | .num n => some n
  | _ => none

/-- Per-axis mapping for `ptz_speed` / `ptz_step` after the constructor
normalized a scalar into a three-entry mapping; all three keys present. -/
structure AxisMap where
  pan : ℚ
  tilt : ℚ
  zoom : ℚ
deriving DecidableEq, Repr

/-- The mutable per-session state of `ONVIFHassCamera` that the embedded
operations read and write: the PTZ service handle (present or absent), the
stored profile index, the stream source `_input`, credentials and the
normalized speed/step configuration. -/
structure CameraState where
  ptzService : Bool
  profileIndex : Int
  input : Option String
  username : String
  password : String
  ptzSpeed : AxisMap
  ptzStep : AxisMap
deriving DecidableEq, Repr

/-- Observable events of a run: ONVIF network calls (with their request
payloads), the bounded wait of a continuous move, and log statements. -/
inductive Event where
  | getProfiles
  | getStreamUri (tok : Option String)
  | gotoPreset (tok : Option String) (preset : Int)
  | continuousMove (tok : Option String) (vx vy vz : ℚ)
  | sleep (d : Int)
  | stop (tok : Option String)
  | relativeMove (tok : Option String) (tx ty tz sx sy sz : ℚ)
  | warnSkew
  | warnProfileFallback
  | warnPtzUnsupported
  | warnPtzCreateFailed
  | errorNoProfileToken
  | errorStreamSetup
  | errorNoPreset
  | debugPtzNotSupported
deriving DecidableEq, Repr

/-- Whether an event is an outbound network call. -/
def Event.isNetworkCall : Event → Bool
  | .getProfiles => true
  | .getStreamUri _ => true
  | .gotoPreset _ _ => true
  | .continuousMove _ _ _ _ => true
  | .stop _ => true
  | .relativeMove _ _ _ _ _ _ _ => true
  | _ => false

/-- Whether an event is a PTZ-service operation. -/
def Event.isPtzOp : Event → Bool
  | .gotoPreset _ _ => true
  | .continuousMove _ _ _ _ => true
  | .stop _ => true
  | .relativeMove _ _ _ _ _ _ _ => true
  | _ => false

/-- Whether an event is a `ContinuousMove` call. -/
def Event.isContinuousMove : Event → Bool
  | .continuousMove _ _ _ _ => true
  | _ => false

/-- Whether an event is a `Stop` call. -/
def Event.isStopCall : Event → Bool
  | .stop _ => true
  | _ => false

/-- Whether an event is a `RelativeMove` call. -/
def Event.isRelativeMove : Event → Bool
  | .relativeMove _ _ _ _ _ _ _ => true
  | _ => false

/-- The only Python exception these code paths can raise past their
`except` clauses: indexing `profiles` out of range. -/
inductive PyError where
  | indexError
deriving DecidableEq, Repr

/-- The camera's response to one `GetProfiles` call: a list of profile
tokens, or an `ONVIFError` fault. -/
inductive ProfilesResp where
  | ok (profiles : List String)
  | fault (reason : String)
deriving DecidableEq, Repr

/-- Python list indexing `l[i]`: non-negative indices from the front,
negative indices from the back, `none` for an `IndexError`. -/
def pyGet (l : List String) (i : Int) : Option String :=
  if 0 ≤ i then l.get? i.toNat
  else if 0 ≤ i + (l.length : Int) then l.get? (i + (l.length : Int)).toNat
  else none

/-- Result of `async_obtain_profile_token`: the (possibly mutated) session
state, the trace, and either the returned value (`some` token, or `none`
for the explicit no-token result) or a raised `IndexError`. -/
structure TokenRes where
  state : CameraState
  events : List Event
  result : Except PyError (Option String)
deriving Repr

/-- `async_obtain_profile_token`: calls `GetProfiles`; on an `ONVIFError`
logs and returns `None`; if the stored profile index is `≥ len(profiles)`,
logs a warning and mutates the stored index to `-1`; then returns
`profiles[self._profile_index].token`, which raises `IndexError` when the
index is out of range for Python indexing (empty list). -/
def obtainProfileToken (st : CameraState) (resp : ProfilesResp) : TokenRes :=
  match resp with
  | .fault _ => ⟨st, [.getProfiles, .errorNoProfileToken], .ok none⟩
  | .ok ps =>
    if st.profileIndex ≥ (ps.length : Int) then
      let st1 := { st with profileIndex := -1 }
      match pyGet ps (-1) with
      | some tok => ⟨st1, [.getProfiles, .warnProfileFallback], .ok (some tok)⟩
      | none => ⟨st1, [.getProfiles, .warnProfileFallback], .error .indexError⟩
    else
      match pyGet ps st.profileIndex with
      | some tok => ⟨st, [.getProfiles], .ok (some tok)⟩
      | none => ⟨st, [.getProfiles], .error .indexError⟩

/-- A sequence of profile-token resolutions on one session, each with its
own camera response, threading the session state. -/
def runTokenResolutions (st : CameraState) : List ProfilesResp → CameraState
  | [] => st
  | r :: rs => runTokenResolutions (obtainProfileToken st r).state rs

/-- `needle.isPrefixOf` checked at every suffix of the haystack: Python's
`needle in hay`. -/
def listContainsSub (needle : List Char) : List Char → Bool
  | [] => needle.isEmpty
  | c :: rest => needle.isPrefixOf (c :: rest) || listContainsSub needle rest

/-- Python substring containment `needle in hay`. -/
def containsSub (hay needle : String) : Bool :=
  listContainsSub needle.data hay.data

/-- Replace the first occurrence of `old` (earliest start position) by
`new`, leaving the list unchanged when `old` does not occur: Python's
`hay.replace(old, new, 1)`. -/
def replaceFirstList (old new : List Char) : List Char → List Char
  | [] => if old.isEmpty then new else []
  | c :: rest =>
    if old.isPrefixOf (c :: rest) then new ++ (c :: rest).drop old.length
    else c :: replaceFirstList old new rest

/-- Python's `s.replace(old, new, 1)` on strings. -/
def pyReplaceFirst (s old new : String) : String :=
  ⟨replaceFirstList old.data new.data s.data⟩

/-- Environment of one `async_obtain_input_uri` call: the `GetProfiles`
response and the `GetStreamUri` outcome (returned URI, or fault reason). -/
structure StreamEnv where
  profilesResp : ProfilesResp
  streamUri : Except String String
deriving Repr

/-- Result of `async_obtain_input_uri` / `async_initialize`. -/
structure UriResult where
  state : CameraState
  events : List Event
  raised : Bool
deriving Repr

/-- `async_obtain_input_uri`: resolves the profile token (an `IndexError`
there propagates), issues `GetStreamUri`; on an `ONVIFError` logs and
returns with `_input` untouched; on success stores as `_input` the
returned URI with `rtsp://` replaced (first occurrence) by
`rtsp://username:password@`.  The log-safe variant with placeholder
credentials is a local variable only and is not stored. -/
def obtainInputUri (st : CameraState) (env : StreamEnv) : UriResult :=
  let t := obtainProfileToken st env.profilesResp
  match t.result with
  | .error _ => ⟨t.state, t.events, true⟩
  | .ok tok =>
    match env.streamUri with
    | .error _ => ⟨t.state, t.events ++ [.getStreamUri tok, .errorStreamSetup], false⟩
    | .ok uri =>
      let operational := pyReplaceFirst uri "rtsp://"
        ("rtsp://" ++ t.state.username ++ ":" ++ t.state.password ++ "@")
      ⟨{ t.state with input := some operational },
        t.events ++ [.getStreamUri tok], false⟩

/-- Environment of one `async_perform_ptz` call: the `GetProfiles`
response, and for each possible PTZ operation the fault reason the camera
answers with (`none` when the call succeeds). -/
structure PtzEnv where
  profilesResp : ProfilesResp
  gotoPresetFault : Option String
  continuousMoveFault : Option String
  stopFault : Option String
  relativeMoveFault : Option String
deriving Repr

/-- The `except exceptions.ONVIFError` handler of `async_perform_ptz`:
a reason containing `"Bad Request"` clears the PTZ handle (and logs at
debug level); otherwise a reason containing `"preset token"` logs a
user-facing error; any other reason is swallowed silently. -/
def classifyFault (st : CameraState) (reason : String) : CameraState × List Event :=
  if containsSub reason "Bad Request" then
    ({ st with ptzService := false }, [.debugPtzNotSupported])
  else if containsSub reason "preset token" then
    (st, [.errorNoPreset])
  else
    (st, [])

/-- Result of one `async_perform_ptz` call. -/
structure PtzResult where
  state : CameraState
  events : List Event
  raised : Bool
deriving Repr

/-- `async_perform_ptz`: if the PTZ handle is absent, log a warning and
return (no network call).  Otherwise compute the per-axis speeds (override
or configured default) and the per-axis step products, then select the
operation: a given preset issues `GotoPreset`; else a given duration
issues `ContinuousMove` with velocity `step·value·speed`, sleeps for the
duration and issues `Stop` with the same profile token; else issues
`RelativeMove` with translation `step·value` and the per-axis speeds.
Each branch first re-resolves the profile token (an `IndexError` there
propagates); an `ONVIFError` from any PTZ call is classified by
`classifyFault`. -/
def performPtz (st : CameraState) (env : PtzEnv) (pan tilt zoom : Int)
    (duration : Option Int) (speedPan speedTilt speedZoom : Option ℚ)
    (preset : Option Int) : PtzResult :=
  if st.ptzService = false then
    ⟨st, [.warnPtzUnsupported], false⟩
  else
    let spdPan := speedPan.getD st.ptzSpeed.pan
    let spdTilt := speedTilt.getD st.ptzSpeed.tilt
    let spdZoom := speedZoom.getD st.ptzSpeed.zoom
    let panVal := st.ptzStep.pan * (pan : ℚ)
    let tiltVal := st.ptzStep.tilt * (tilt : ℚ)
    let zoomVal := st.ptzStep.zoom * (zoom : ℚ)
    match preset with
    | some p =>
      let t := obtainProfileToken st env.profilesResp
      match t.result with
      | .error _ => ⟨t.state, t.events, true⟩
      | .ok tok =>
        match env.gotoPresetFault with
        | none => ⟨t.state, t.events ++ [.gotoPreset tok p], false⟩
        | some r =>
          let c := classifyFault t.state r
          ⟨c.1, t.events ++ [.gotoPreset tok p] ++ c.2, false⟩
    | none =>
      match duration with
      | some d =>
        let t := obtainProfileToken st env.profilesResp
        match t.result with
        | .error _ => ⟨t.state, t.events, true⟩
        | .ok tok =>
          let cm : Event :=
            .continuousMove tok (panVal * spdPan) (tiltVal * spdTilt) (zoomVal * spdZoom)
          match env.continuousMoveFault with
          | some r =>
            let c := classifyFault t.state r
            ⟨c.1, t.events ++ [cm] ++ c.2, false⟩
          | none =>
            match env.stopFault with
            | none => ⟨t.state, t.events ++ [cm, .sleep d, .stop tok], false⟩
            | some r =>
              let c := classifyFault t.state r
              ⟨c.1, t.events ++ [cm, .sleep d, .stop tok] ++ c.2, false⟩
      | none =>
        let t := obtainProfileToken st env.profilesResp
        match t.result with
        | .error _ => ⟨t.state, t.events, true⟩
        | .ok tok =>
          let rm : Event :=
            .relativeMove tok panVal tiltVal zoomVal spdPan spdTilt spdZoom
          match env.relativeMoveFault with
          | none => ⟨t.state, t.events ++ [rm], false⟩
          | some r =>
            let c := classifyFault t.state r
            ⟨c.1, t.events ++ [rm] ++ c.2, false⟩

/-- The per-camera part of the `async_handle_ptz` dispatcher composed with
the engine: normalize the three axes, then call `async_perform_ptz`
(defined only when normalization yields integers, as it does on
schema-valid service data). -/
def handlePtz (st : CameraState) (env : PtzEnv) (pan tilt zoom : AxisInput)
    (duration : Option Int) (speedPan speedTilt speedZoom : Option ℚ)
    (preset : Option Int) : Option PtzResult :=
  match axisIntVal (normalizePan pan), axisIntVal (normalizeTilt tilt),
      axisIntVal (normalizeZoom zoom) with
  | some p, some t, some z =>
    some (performPtz st env p t z duration speedPan speedTilt speedZoom preset)
  | _, _, _ => none

/-- One PTZ command together with its call environment, for sequencing. -/
structure PtzCall where
  env : PtzEnv
  pan : Int
  tilt : Int
  zoom : Int
  duration : Option Int
  speedPan : Option ℚ
  speedTilt : Option ℚ
  speedZoom : Option ℚ
  preset : Option Int
deriving Repr

/-- `async_perform_ptz` applied to a bundled call. -/
def performPtzCall (st : CameraState) (c : PtzCall) : PtzResult :=
  performPtz st c.env c.pan c.tilt c.zoom c.duration
    c.speedPan c.speedTilt c.speedZoom c.preset

/-- A sequence of PTZ calls on one session, threading the state and
concatenating the traces. -/
def runPtzCalls (st : CameraState) : List PtzCall → CameraState × List Event
  | [] => (st, [])
  | c :: cs =>
    let r := performPtzCall st c
    let rest := runPtzCalls r.state cs
    (rest.1, r.events ++ rest.2)

/-- Environment of one `async_initialize` run on the path where the
camera is reachable: the camera-reported UTC time (`none` when the device
returns no time), the local UTC time, both in seconds, the stream-URI
environment, and whether `create_ptz_service` raises. -/
structure InitEnv where
  deviceTime : Option Int
  systemTime : Int
  streamEnv : StreamEnv
  ptzCreateFault : Bool
deriving Repr

/-- The clock-skew check of `async_initialize`: when a device time is
present and `(cam_date - system_date).total_seconds() > 5`, a warning is
logged; nothing else happens. -/
def timeCheckEvents (deviceTime : Option Int) (systemTime : Int) : List Event :=
  match deviceTime with
  | none => []
  | some cam => if cam - systemTime > 5 then [.warnSkew] else []

/-- `async_initialize` (reachable-camera path): runs the clock-skew check,
resolves the input URI (an `IndexError` there propagates), then attempts
to create the PTZ service handle, logging a warning and leaving the handle
absent when creation fails. -/
def asyncInitialize (st : CameraState) (env : InitEnv) : UriResult :=
  let tEvs := timeCheckEvents env.deviceTime env.systemTime
  let u := obtainInputUri st env.streamEnv
  if u.raised then ⟨u.state, tEvs ++ u.events, true⟩
  else if env.ptzCreateFault then
    ⟨u.state, tEvs ++ u.events ++ [.warnPtzCreateFailed], false⟩
  else
    ⟨{ u.state with ptzService := true }, tEvs ++ u.events, false⟩

/-- A per-axis map with all three axes equal (the scalar-config case). -/
def axisAll (q : ℚ) : AxisMap := ⟨q, q, q⟩

/-- A concrete session with the default configuration (`profile 0`,
speed 1, step 0.005) and a live PTZ handle, for witnesses. -/
def stDefault : CameraState :=
  { ptzService := true, profileIndex := 0, input := none,
    username := "admin", password := "888888",
    ptzSpeed := axisAll 1, ptzStep := axisAll (1 / 200) }

/-- `stDefault` after PTZ has been disabled. -/
def stDisabled : CameraState := { stDefault with ptzService := false }

/-- A benign environment: one advertised profile, every call succeeds. -/
def envOk : PtzEnv := ⟨.ok ["MediaProfile000"], none, none, none, none⟩

/-- Environment where the `ContinuousMove` call faults. -/
def envCmFault : PtzEnv :=
  ⟨.ok ["MediaProfile000"], none, some "Unknown operation requested", none, none⟩

/-- Environment where `GotoPreset` faults with a malformed-request reason. -/
def envBadRequest : PtzEnv :=
  ⟨.ok ["MediaProfile000"], some "HTTP Error 400: Bad Request", none, none, none⟩

/-- Environment where `GotoPreset` faults with an invalid-preset reason. -/
def envPresetErr : PtzEnv :=
  ⟨.ok ["MediaProfile000"], some "No matching preset token found", none, none, none⟩

/-- A bundled preset-recall call in the benign environment. -/
def callPreset : PtzCall := ⟨envOk, 0, 0, 0, none, none, none, none, some 7⟩

/-- A stream environment where `GetStreamUri` succeeds. -/
def streamEnvOk : StreamEnv :=
  ⟨.ok ["MediaProfile000"], .ok "rtsp://192.168.1.2:554/h264"⟩

/-- A stream environment where `GetStreamUri` faults. -/
def streamEnvFault : StreamEnv :=
  ⟨.ok ["MediaProfile000"], .error "Unauthorized"⟩

/-- An initialization environment with the camera clock 10 seconds behind
the system clock (in which the stream call happens to fault). -/
def initEnvBehind : InitEnv := ⟨some 0, 10, streamEnvFault, false⟩

/-- `stDefault` with configured profile index 1. -/
def stIndex1 : CameraState := { stDefault with profileIndex := 1 }

end OnvifCamera

open OnvifCamera

/-- The profile resolver mutates only the stored profile index; every
other session field is preserved. -/
theorem obtainProfileToken_state_eq (st : CameraState) (resp : ProfilesResp) :
    (obtainProfileToken st resp).state =
      { st with profileIndex := (obtainProfileToken st resp).state.profileIndex } := by
  unfold obtainProfileToken
  cases resp with
  | fault r => rfl
  | ok ps =>
    dsimp only
    split
    · split <;> rfl
    · split <;> rfl

/-- The trace of one profile resolution is one of three concrete shapes. -/
theorem obtainProfileToken_events (st : CameraState) (resp : ProfilesResp) :
    (obtainProfileToken st resp).events = [.getProfiles, .errorNoProfileToken] ∨
    (obtainProfileToken st resp).events = [.getProfiles, .warnProfileFallback] ∨
    (obtainProfileToken st resp).events = [.getProfiles] := by
  unfold obtainProfileToken
  cases resp with
  | fault r => exact Or.inl rfl
  | ok ps =>
    dsimp only
    split
    · split
      · exact Or.inr (Or.inl rfl)
      · exact Or.inr (Or.inl rfl)
    · split
      · exact Or.inr (Or.inr rfl)
      · exact Or.inr (Or.inr rfl)

/-- Fault classification either clears the handle with a debug log, logs
the invalid-preset error, or does nothing. -/
theorem classifyFault_cases (st : CameraState) (r : String) :
    classifyFault st r = ({ st with ptzService := false }, [.debugPtzNotSupported]) ∨
    classifyFault st r = (st, [.errorNoPreset]) ∨
    classifyFault st r = (st, []) := by
  unfold classifyFault
  split
  · exact Or.inl rfl
  · split
    · exact Or.inr (Or.inl rfl)
    · exact Or.inr (Or.inr rfl)

/-- Python `profiles[-1]` is the last element of a non-empty list. -/
theorem pyGet_neg_one (ps : List String) (h : ps ≠ []) :
    pyGet ps (-1) = some (ps.getLast h) := by
  unfold pyGet
  have hlen : 1 ≤ ps.length := List.length_pos.mpr h
  rw [if_neg (by decide), if_pos (by omega)]
  rw [List.get?_eq_getElem?]
  have hidx : (-1 + (ps.length : Int)).toNat = ps.length - 1 := by omega
  rw [hidx, ← List.getLast?_eq_getElem?, List.getLast?_eq_getLast_of_ne_nil h]

/-- A resolution starting from stored index `-1` never changes the session
state (the fallback branch cannot fire again). -/
theorem obtainProfileToken_neg_one_state (st : CameraState) (resp : ProfilesResp)
    (h : st.profileIndex = -1) : (obtainProfileToken st resp).state = st := by
  unfold obtainProfileToken
  cases resp with
  | fault r => rfl
  | ok ps =>
    dsimp only
    rw [h, if_neg (by omega)]
    split <;> rfl

/-- C2: directional normalization is a deterministic total function mapping
LEFT to -20, RIGHT to +20, UP to +20, DOWN to -20, ZOOM_IN to +20, ZOOM_OUT
to -20, the token NONE and an absent value to 0, and passing every other
integer through unchanged (the integer 0, being falsy, is mapped to 0 by
the falsiness branch, which is the same value). -/
theorem ptz_direction_normalization :
    normalizePan (.dir "LEFT") = .num (-20) ∧
    normalizePan (.dir "RIGHT") = .num 20 ∧
    normalizeTilt (.dir "UP") = .num 20 ∧
    normalizeTilt (.dir "DOWN") = .num (-20) ∧
    normalizeZoom (.dir "ZOOM_IN") = .num 20 ∧
    normalizeZoom (.dir "ZOOM_OUT") = .num (-20) ∧
    normalizePan (.dir "NONE") = .num 0 ∧
    normalizePan .absent = .num 0 ∧
    normalizeTilt (.dir "NONE") = .num 0 ∧
    normalizeTilt .absent = .num 0 ∧
    normalizeZoom (.dir "NONE") = .num 0 ∧
    normalizeZoom .absent = .num 0 ∧
    (∀ n : Int,
      normalizePan (.num n) = .num n ∧
      normalizeTilt (.num n) = .num n ∧
      normalizeZoom (.num n) = .num n) := by
  refine ⟨by decide, by decide, by decide, by decide, by decide, by decide,
    by decide, by decide, by decide, by decide, by decide, by decide, ?_⟩
  intro n
  by_cases hn : n = 0 <;>
    simp [normalizePan, normalizeTilt, normalizeZoom, normalizeAxis,
      axisTruthy, STEP, hn]

/-- Witness for C2: instantiates the integer pass-through clause at 5. -/
theorem ptz_direction_normalization_witness :
    normalizePan (.num 5) = .num 5 :=
  (ptz_direction_normalization.2.2.2.2.2.2.2.2.2.2.2.2 5).1

/-- C5 (amended: the profile list must be non-empty): when the stored
profile index is at least the number of advertised profiles, resolution
logs a warning and returns the token of the last profile without raising;
and on a protocol-level fault it returns the explicit no-token result
`None` with the session state untouched. -/
theorem profile_fallback_resolution (st : CameraState) (ps : List String)
    (r : String) (hne : ps ≠ []) (hidx : st.profileIndex ≥ (ps.length : Int)) :
    (obtainProfileToken st (.ok ps)).result = .ok (some (ps.getLast hne)) ∧
    Event.warnProfileFallback ∈ (obtainProfileToken st (.ok ps)).events ∧
    (obtainProfileToken st (.fault r)).result = .ok none ∧
    (obtainProfileToken st (.fault r)).state = st := by
  have h1 : pyGet ps (-1) = some (ps.getLast hne) := pyGet_neg_one ps hne
  refine ⟨?_, ?_, rfl, rfl⟩ <;>
    simp [obtainProfileToken, if_pos hidx, h1]

/-- Witness for C5: a session configured with profile index 1 against a
single advertised profile falls back to that profile's token. -/
theorem profile_fallback_resolution_witness :
    (obtainProfileToken stIndex1 (.ok ["MediaProfile000"])).result
        = .ok (some "MediaProfile000") ∧
    Event.warnProfileFallback ∈ (obtainProfileToken stIndex1 (.ok ["MediaProfile000"])).events :=
  ⟨(profile_fallback_resolution stIndex1 ["MediaProfile000"] "x"
      (by decide) (by decide)).1,
   (profile_fallback_resolution stIndex1 ["MediaProfile000"] "x"
      (by decide) (by decide)).2.1⟩

/-- C5 counterexample: when the camera returns an empty profile list (the
configured index 0 is then `≥ len(profiles)`), the resolver does not
return a token — `profiles[-1]` raises an uncaught `IndexError`, so the
claim's "falls back to the last profile and returns its token without
raising" fails on this profile list. -/
theorem profile_fallback_counterexample :
    stDefault.profileIndex ≥ (([] : List String).length : Int) ∧
    (obtainProfileToken stDefault (.ok [])).result = .error .indexError := by
  constructor
  · decide
  · rfl

/-- C10: an out-of-range fallback permanently mutates the stored profile
index to -1: one resolution whose configured index is at least the number
of profiles leaves the index at -1; the index then stays -1 across every
later resolution; and from index -1 every later resolution against a
non-empty profile list selects the last advertised profile (regardless of
whether the originally configured index would be in range for it). -/
theorem profile_index_permanent_fallback (st : CameraState) (ps1 : List String)
    (hidx : st.profileIndex ≥ (ps1.length : Int)) :
    (obtainProfileToken st (.ok ps1)).state.profileIndex = -1 ∧
    (∀ (st' : CameraState), st'.profileIndex = -1 →
      ∀ rs : List ProfilesResp, (runTokenResolutions st' rs).profileIndex = -1) ∧
    (∀ (st' : CameraState), st'.profileIndex = -1 →
      ∀ (ps2 : List String) (hne : ps2 ≠ []),
        (obtainProfileToken st' (.ok ps2)).result = .ok (some (ps2.getLast hne)) ∧
        (obtainProfileToken st' (.ok ps2)).state = st') := by
  refine ⟨?_, ?_, ?_⟩
  · unfold obtainProfileToken
    dsimp only
    rw [if_pos hidx]
    split <;> rfl
  · intro st' h rs
    induction rs generalizing st' with
    | nil => exact h
    | cons r rs ih =>
      unfold runTokenResolutions
      exact ih _ (by rw [obtainProfileToken_neg_one_state st' r h, h])
  · intro st' h ps2 hne
    have h1 : pyGet ps2 (-1) = some (ps2.getLast hne) := pyGet_neg_one ps2 hne
    constructor
    · unfold obtainProfileToken
      dsimp only
      rw [h, if_neg (by omega), h1]
    · exact obtainProfileToken_neg_one_state st' (.ok ps2) h

/-- Witness for C10: after resolving against a single-profile list with
configured index 1, the index is -1, and a later three-profile list (for
which index 1 would be in range) still resolves to the last profile. -/
theorem profile_index_permanent_fallback_witness :
    (obtainProfileToken stIndex1 (.ok ["MediaProfile000"])).state.profileIndex = -1 ∧
    (obtainProfileToken (obtainProfileToken stIndex1 (.ok ["MediaProfile000"])).state
        (.ok ["p0", "p1", "p2"])).result = .ok (some "p2") := by
  have h := profile_index_permanent_fallback stIndex1 ["MediaProfile000"] (by decide)
  refine ⟨h.1, ?_⟩
  have h2 := (h.2.2 (obtainProfileToken stIndex1 (.ok ["MediaProfile000"])).state h.1
    ["p0", "p1", "p2"] (by decide)).1
  simpa using h2

/-- The trace of a profile resolution contains no PTZ operation, no
`ContinuousMove`, no `Stop` and no `RelativeMove`. -/
theorem obtainProfileToken_no_ptz_events (st : CameraState) (resp : ProfilesResp) :
    (obtainProfileToken st resp).events.filter Event.isPtzOp = [] ∧
    (obtainProfileToken st resp).events.countP Event.isContinuousMove = 0 ∧
    (obtainProfileToken st resp).events.countP Event.isStopCall = 0 ∧
    (obtainProfileToken st resp).events.filter Event.isContinuousMove = [] ∧
    (obtainProfileToken st resp).events.filter Event.isRelativeMove = [] := by
  rcases obtainProfileToken_events st resp with h | h | h <;> rw [h] <;>
    exact ⟨rfl, rfl, rfl, rfl, rfl⟩

/-- Fault classification emits only log events: no PTZ operation, no
`ContinuousMove`, no `Stop`, no `RelativeMove`, no network call. -/
theorem classifyFault_no_ptz_events (st : CameraState) (r : String) :
    (classifyFault st r).2.filter Event.isPtzOp = [] ∧
    (classifyFault st r).2.countP Event.isContinuousMove = 0 ∧
    (classifyFault st r).2.countP Event.isStopCall = 0 ∧
    (classifyFault st r).2.filter Event.isContinuousMove = [] ∧
    (classifyFault st r).2.filter Event.isRelativeMove = [] := by
  rcases classifyFault_cases st r with h | h | h <;> rw [h] <;>
    exact ⟨rfl, rfl, rfl, rfl, rfl⟩

/-- C1: operation selection is mutually exclusive and checked in the order
preset, duration, relative: whenever a preset identifier is given (whether
or not duration, pan/tilt/zoom or speed overrides are also given) and the
PTZ handle is present and profile resolution completes, the engine issues
exactly one PTZ operation, a `GotoPreset` carrying the resolved profile
token and that preset, and the whole outcome of the call is independent
of the pan, tilt, zoom, duration and speed arguments. -/
theorem goto_preset_selection (st : CameraState) (env : PtzEnv)
    (pan tilt zoom : Int) (dur : Option Int) (s1 s2 s3 : Option ℚ)
    (p : Int) (tok : Option String)
    (hsvc : st.ptzService = true)
    (hres : (obtainProfileToken st env.profilesResp).result = .ok tok) :
    (performPtz st env pan tilt zoom dur s1 s2 s3 (some p)).events.filter Event.isPtzOp
        = [.gotoPreset tok p] ∧
    ∀ (pan' tilt' zoom' : Int) (dur' : Option Int) (s1' s2' s3' : Option ℚ),
      performPtz st env pan' tilt' zoom' dur' s1' s2' s3' (some p)
        = performPtz st env pan tilt zoom dur s1 s2 s3 (some p) := by
  constructor
  · unfold performPtz
    rw [if_neg (by simp [hsvc])]
    dsimp only
    rw [hres]
    cases h : env.gotoPresetFault with
    | none =>
      simp [List.filter_append, (obtainProfileToken_no_ptz_events st env.profilesResp).1,
        Event.isPtzOp]
    | some r =>
      simp [List.filter_append, (obtainProfileToken_no_ptz_events st env.profilesResp).1,
        (classifyFault_no_ptz_events (obtainProfileToken st env.profilesResp).state r).1,
        Event.isPtzOp]
  · intro pan' tilt' zoom' dur' s1' s2' s3'
    unfold performPtz
    rw [if_neg (by simp [hsvc])]

/-- Witness for C1: a command carrying preset 7 together with a duration
and non-zero pan/tilt/zoom issues exactly the `GotoPreset`, and changing
all the other fields leaves the outcome unchanged. -/
theorem goto_preset_selection_witness :
    (performPtz stDefault envOk 1 2 3 (some 9) none none none (some 7)).events.filter
        Event.isPtzOp = [.gotoPreset (some "MediaProfile000") 7] ∧
    performPtz stDefault envOk 4 5 6 none (some (1 / 2)) none none (some 7)
      = performPtz stDefault envOk 1 2 3 (some 9) none none none (some 7) := by
  have h := goto_preset_selection stDefault envOk 1 2 3 (some 9) none none none 7
    (some "MediaProfile000") rfl rfl
  exact ⟨h.1, h.2 4 5 6 none (some (1 / 2)) none none⟩

/-- C3 (amended: additionally requires that the `ContinuousMove` call
itself does not return a protocol error, since the source's `except`
handler would then skip the hold and the `Stop`): a command taking the
continuous-move branch — duration given, no preset, PTZ handle present,
profile resolution completing — issues exactly one `ContinuousMove` and
exactly one `Stop`, in that order with the `duration`-long hold between
them, and the `Stop` carries the same profile token as the
`ContinuousMove`. -/
theorem continuous_move_bounded_stop (st : CameraState) (env : PtzEnv)
    (pan tilt zoom : Int) (d : Int) (s1 s2 s3 : Option ℚ) (tok : Option String)
    (hsvc : st.ptzService = true)
    (hres : (obtainProfileToken st env.profilesResp).result = .ok tok)
    (hcm : env.continuousMoveFault = none) :
    (performPtz st env pan tilt zoom (some d) s1 s2 s3 none).events.countP
        Event.isContinuousMove = 1 ∧
    (performPtz st env pan tilt zoom (some d) s1 s2 s3 none).events.countP
        Event.isStopCall = 1 ∧
    List.Sublist
      [Event.continuousMove tok (st.ptzStep.pan * pan * (s1.getD st.ptzSpeed.pan))
        (st.ptzStep.tilt * tilt * (s2.getD st.ptzSpeed.tilt))
        (st.ptzStep.zoom * zoom * (s3.getD st.ptzSpeed.zoom)),
       Event.sleep d, Event.stop tok]
      (performPtz st env pan tilt zoom (some d) s1 s2 s3 none).events := by
  unfold performPtz
  rw [if_neg (by simp [hsvc])]
  dsimp only
  rw [hres, hcm]
  cases h : env.stopFault with
  | none =>
    dsimp only
    refine ⟨?_, ?_, ?_⟩
    · simp [List.countP_append, (obtainProfileToken_no_ptz_events st env.profilesResp).2.1,
        Event.isContinuousMove, List.countP_cons]
    · simp [List.countP_append, (obtainProfileToken_no_ptz_events st env.profilesResp).2.2.1,
        Event.isStopCall, List.countP_cons]
    · exact List.sublist_append_right _ _
  | some r =>
    dsimp only
    refine ⟨?_, ?_, ?_⟩
    · simp [List.countP_append, (obtainProfileToken_no_ptz_events st env.profilesResp).2.1,
        (classifyFault_no_ptz_events (obtainProfileToken st env.profilesResp).state r).2.1,
        Event.isContinuousMove, List.countP_cons]
    · simp [List.countP_append, (obtainProfileToken_no_ptz_events st env.profilesResp).2.2.1,
        (classifyFault_no_ptz_events (obtainProfileToken st env.profilesResp).state r).2.2.1,
        Event.isStopCall, List.countP_cons]
    · rw [List.append_assoc]
      exact List.Sublist.trans (List.sublist_append_left _ _) (List.sublist_append_right _ _)

/-- Witness for C3 (amended): the default session with one profile and a
fault-free environment, duration 3. -/
theorem continuous_move_bounded_stop_witness :
    (performPtz stDefault envOk 0 0 0 (some 3) none none none none).events.countP
        Event.isContinuousMove = 1 ∧
    (performPtz stDefault envOk 0 0 0 (some 3) none none none none).events.countP
        Event.isStopCall = 1 := by
  have h := continuous_move_bounded_stop stDefault envOk 0 0 0 3 none none none
    (some "MediaProfile000") rfl rfl rfl
  exact ⟨h.1, h.2.1⟩

/-- C3 counterexample: in a run that is not cancelled but in which the
`ContinuousMove` call returns a protocol error (reason matching neither
classification pattern), the engine issues the `ContinuousMove` but never
issues a `Stop`, refuting "exactly one ContinuousMove and then exactly one
Stop" as stated. -/
theorem continuous_move_stop_counterexample :
    envCmFault.continuousMoveFault.isSome = true ∧
    (performPtz stDefault envCmFault 0 0 0 (some 3) none none none none).events.countP
        Event.isContinuousMove = 1 ∧
    (performPtz stDefault envCmFault 0 0 0 (some 3) none none none none).events.countP
        Event.isStopCall = 0 := by
  refine ⟨rfl, ?_, ?_⟩ <;> rfl

/-- The profile resolver preserves the PTZ handle, the stream source and
the credentials. -/
theorem obtainProfileToken_preserves (st : CameraState) (resp : ProfilesResp) :
    (obtainProfileToken st resp).state.ptzService = st.ptzService ∧
    (obtainProfileToken st resp).state.input = st.input ∧
    (obtainProfileToken st resp).state.username = st.username ∧
    (obtainProfileToken st resp).state.password = st.password := by
  refine ⟨?_, ?_, ?_, ?_⟩ <;> rw [obtainProfileToken_state_eq st resp]

/-- C4: PTZ fault classification and the resulting session invariant.  A
protocol error whose reason contains "Bad Request", raised by any of the
four PTZ calls (`GotoPreset`, `ContinuousMove`, `Stop`, `RelativeMove`),
clears the PTZ handle; once the handle is absent, every later PTZ call on
the session is a no-op issuing no network call, and the state (handle
included) never changes again.  A protocol error whose reason instead
contains "preset token" logs the user-facing invalid-preset error and
leaves the PTZ handle set. -/
theorem ptz_fault_classification :
    (∀ (st : CameraState) (env : PtzEnv) (pan tilt zoom : Int) (dur : Option Int)
        (s1 s2 s3 : Option ℚ) (p : Int) (r : String) (tok : Option String),
      st.ptzService = true →
      (obtainProfileToken st env.profilesResp).result = .ok tok →
      env.gotoPresetFault = some r → containsSub r "Bad Request" = true →
      (performPtz st env pan tilt zoom dur s1 s2 s3 (some p)).state.ptzService = false) ∧
    (∀ (st : CameraState) (env : PtzEnv) (pan tilt zoom d : Int)
        (s1 s2 s3 : Option ℚ) (r : String) (tok : Option String),
      st.ptzService = true →
      (obtainProfileToken st env.profilesResp).result = .ok tok →
      env.continuousMoveFault = some r → containsSub r "Bad Request" = true →
      (performPtz st env pan tilt zoom (some d) s1 s2 s3 none).state.ptzService = false) ∧
    (∀ (st : CameraState) (env : PtzEnv) (pan tilt zoom d : Int)
        (s1 s2 s3 : Option ℚ) (r : String) (tok : Option String),
      st.ptzService = true →
      (obtainProfileToken st env.profilesResp).result = .ok tok →
      env.continuousMoveFault = none →
      env.stopFault = some r → containsSub r "Bad Request" = true →
      (performPtz st env pan tilt zoom (some d) s1 s2 s3 none).state.ptzService = false) ∧
    (∀ (st : CameraState) (env : PtzEnv) (pan tilt zoom : Int)
        (s1 s2 s3 : Option ℚ) (r : String) (tok : Option String),
      st.ptzService = true →
      (obtainProfileToken st env.profilesResp).result = .ok tok →
      env.relativeMoveFault = some r → containsSub r "Bad Request" = true →
      (performPtz st env pan tilt zoom none s1 s2 s3 none).state.ptzService = false) ∧
    (∀ (st : CameraState) (cs : List PtzCall), st.ptzService = false →
      (runPtzCalls st cs).1 = st ∧
      (runPtzCalls st cs).2.filter Event.isNetworkCall = []) ∧
    (∀ (st : CameraState) (env : PtzEnv) (pan tilt zoom : Int) (dur : Option Int)
        (s1 s2 s3 : Option ℚ) (p : Int) (r : String) (tok : Option String),
      st.ptzService = true →
      (obtainProfileToken st env.profilesResp).result = .ok tok →
      env.gotoPresetFault = some r →
      containsSub r "Bad Request" = false → containsSub r "preset token" = true →
      (performPtz st env pan tilt zoom dur s1 s2 s3 (some p)).state.ptzService = true ∧
      Event.errorNoPreset ∈ (performPtz st env pan tilt zoom dur s1 s2 s3 (some p)).events) := by
  refine ⟨?_, ?_, ?_, ?_, ?_, ?_⟩
  · intro st env pan tilt zoom dur s1 s2 s3 p r tok hsvc hres hflt hbr
    unfold performPtz
    rw [if_neg (by simp [hsvc])]
    dsimp only
    rw [hres, hflt]
    dsimp only
    simp [classifyFault, hbr]
  · intro st env pan tilt zoom d s1 s2 s3 r tok hsvc hres hflt hbr
    unfold performPtz
    rw [if_neg (by simp [hsvc])]
    dsimp only
    rw [hres, hflt]
    dsimp only
    simp [classifyFault, hbr]
  · intro st env pan tilt zoom d s1 s2 s3 r tok hsvc hres hcm hflt hbr
    unfold performPtz
    rw [if_neg (by simp [hsvc])]
    dsimp only
    rw [hres, hcm, hflt]
    dsimp only
    simp [classifyFault, hbr]
  · intro st env pan tilt zoom s1 s2 s3 r tok hsvc hres hflt hbr
    unfold performPtz
    rw [if_neg (by simp [hsvc])]
    dsimp only
    rw [hres, hflt]
    dsimp only
    simp [classifyFault, hbr]
  · intro st cs h
    induction cs with
    | nil => exact ⟨rfl, rfl⟩
    | cons c cs ih =>
      have hc : performPtzCall st c = ⟨st, [.warnPtzUnsupported], false⟩ := by
        unfold performPtzCall performPtz
        rw [if_pos h]
      unfold runPtzCalls
      rw [hc]
      exact ⟨ih.1, by simp [List.filter_append, ih.2, Event.isNetworkCall]⟩
  · intro st env pan tilt zoom dur s1 s2 s3 p r tok hsvc hres hflt hbr hpt
    unfold performPtz
    rw [if_neg (by simp [hsvc])]
    dsimp only
    rw [hres, hflt]
    dsimp only
    constructor
    · simp [classifyFault, hbr, hpt, (obtainProfileToken_preserves st env.profilesResp).1, hsvc]
    · simp [classifyFault, hbr, hpt]

/-- Witness for C4: a "Bad Request" fault on `GotoPreset` clears the
handle; two later calls on the disabled session change nothing and issue
no network call; a "preset token" fault logs the error and leaves the
handle set. -/
theorem ptz_fault_classification_witness :
    (performPtz stDefault envBadRequest 0 0 0 none none none none (some 7)).state.ptzService
        = false ∧
    (runPtzCalls stDisabled [callPreset, callPreset]).1 = stDisabled ∧
    (runPtzCalls stDisabled [callPreset, callPreset]).2.filter Event.isNetworkCall = [] ∧
    (performPtz stDefault envPresetErr 0 0 0 none none none none (some 7)).state.ptzService
        = true ∧
    Event.errorNoPreset ∈ (performPtz stDefault envPresetErr 0 0 0 none none none none
        (some 7)).events := by
  obtain ⟨h1, _, _, _, h5, h6⟩ := ptz_fault_classification
  have w1 := h1 stDefault envBadRequest 0 0 0 none none none none 7
    "HTTP Error 400: Bad Request" (some "MediaProfile000") rfl rfl rfl (by decide)
  have w5 := h5 stDisabled [callPreset, callPreset] rfl
  have w6 := h6 stDefault envPresetErr 0 0 0 none none none none 7
    "No matching preset token found" (some "MediaProfile000") rfl rfl rfl
    (by decide) (by decide)
  exact ⟨w1, w5.1, w5.2, w6.1, w6.2⟩

/-- C6: the `ContinuousMove` velocity is, per axis, the normalized
direction value times the configured step times the speed (per-axis
override when supplied, otherwise the configured default); in particular
a command with pan LEFT and duration 3 (no overrides) yields
`Velocity.PanTilt.x = -20 * step.pan * speed.pan`. -/
theorem continuous_move_velocity (st : CameraState) (env : PtzEnv)
    (pan tilt zoom : Int) (d : Int) (s1 s2 s3 : Option ℚ) (tok : Option String)
    (hsvc : st.ptzService = true)
    (hres : (obtainProfileToken st env.profilesResp).result = .ok tok) :
    (performPtz st env pan tilt zoom (some d) s1 s2 s3 none).events.filter
        Event.isContinuousMove
      = [Event.continuousMove tok ((pan : ℚ) * st.ptzStep.pan * (s1.getD st.ptzSpeed.pan))
          ((tilt : ℚ) * st.ptzStep.tilt * (s2.getD st.ptzSpeed.tilt))
          ((zoom : ℚ) * st.ptzStep.zoom * (s3.getD st.ptzSpeed.zoom))] ∧
    (handlePtz st env (.dir "LEFT") .absent .absent (some 3) none none none none).map
        (fun r => r.events.filter Event.isContinuousMove)
      = some [Event.continuousMove tok (-20 * st.ptzStep.pan * st.ptzSpeed.pan) 0 0] := by
  have key : ∀ (pan tilt zoom : Int) (d : Int) (s1 s2 s3 : Option ℚ),
      (performPtz st env pan tilt zoom (some d) s1 s2 s3 none).events.filter
          Event.isContinuousMove
        = [Event.continuousMove tok ((pan : ℚ) * st.ptzStep.pan * (s1.getD st.ptzSpeed.pan))
            ((tilt : ℚ) * st.ptzStep.tilt * (s2.getD st.ptzSpeed.tilt))
            ((zoom : ℚ) * st.ptzStep.zoom * (s3.getD st.ptzSpeed.zoom))] := by
    intro pan tilt zoom d s1 s2 s3
    unfold performPtz
    rw [if_neg (by simp [hsvc])]
    dsimp only
    rw [hres]
    cases hcm : env.continuousMoveFault with
    | some r =>
      dsimp only
      simp [List.filter_append, (obtainProfileToken_no_ptz_events st env.profilesResp).2.2.2.1,
        (classifyFault_no_ptz_events (obtainProfileToken st env.profilesResp).state r).2.2.2.1,
        Event.isContinuousMove]
      exact ⟨Or.inl (mul_comm _ _), Or.inl (mul_comm _ _), Or.inl (mul_comm _ _)⟩
    | none =>
      cases hstop : env.stopFault with
      | none =>
        dsimp only
        simp [List.filter_append, (obtainProfileToken_no_ptz_events st env.profilesResp).2.2.2.1,
          Event.isContinuousMove, Event.isStopCall]
        exact ⟨Or.inl (mul_comm _ _), Or.inl (mul_comm _ _), Or.inl (mul_comm _ _)⟩
      | some r =>
        dsimp only
        simp [List.filter_append, (obtainProfileToken_no_ptz_events st env.profilesResp).2.2.2.1,
          (classifyFault_no_ptz_events (obtainProfileToken st env.profilesResp).state r).2.2.2.1,
          Event.isContinuousMove, Event.isStopCall]
        exact ⟨Or.inl (mul_comm _ _), Or.inl (mul_comm _ _), Or.inl (mul_comm _ _)⟩
  refine ⟨key pan tilt zoom d s1 s2 s3, ?_⟩
  have h2 := key (-20) 0 0 3 none none none
  have hn : handlePtz st env (.dir "LEFT") .absent .absent (some 3) none none none none
      = some (performPtz st env (-20) 0 0 (some 3) none none none none) := rfl
  rw [hn, Option.map_some', h2]
  norm_num

/-- Witness for C6: the LEFT-with-duration-3 scenario on the default
session (step 1/200, speed 1). -/
theorem continuous_move_velocity_witness :
    (handlePtz stDefault envOk (.dir "LEFT") .absent .absent (some 3)
        none none none none).map (fun r => r.events.filter Event.isContinuousMove)
      = some [Event.continuousMove (some "MediaProfile000")
          (-20 * stDefault.ptzStep.pan * stDefault.ptzSpeed.pan) 0 0] :=
  (continuous_move_velocity stDefault envOk 0 0 0 3 none none none
    (some "MediaProfile000") rfl rfl).2

/-- C7: the `RelativeMove` translation is, per axis, the normalized value
times the configured step, independent of every speed value, and the
request's speed is the per-axis override when supplied, otherwise the
configured default; in particular zoom 5 (no duration, no preset, no
overrides) yields `Translation.Zoom.x = 5 * step.zoom` and
`Speed.Zoom.x = speed.zoom`. -/
theorem relative_move_translation_speed (st : CameraState) (env : PtzEnv)
    (pan tilt zoom : Int) (s1 s2 s3 : Option ℚ) (tok : Option String)
    (hsvc : st.ptzService = true)
    (hres : (obtainProfileToken st env.profilesResp).result = .ok tok) :
    (performPtz st env pan tilt zoom none s1 s2 s3 none).events.filter
        Event.isRelativeMove
      = [Event.relativeMove tok ((pan : ℚ) * st.ptzStep.pan) ((tilt : ℚ) * st.ptzStep.tilt)
          ((zoom : ℚ) * st.ptzStep.zoom) (s1.getD st.ptzSpeed.pan)
          (s2.getD st.ptzSpeed.tilt) (s3.getD st.ptzSpeed.zoom)] ∧
    (handlePtz st env .absent .absent (.num 5) none none none none none).map
        (fun r => r.events.filter Event.isRelativeMove)
      = some [Event.relativeMove tok 0 0 (5 * st.ptzStep.zoom)
          st.ptzSpeed.pan st.ptzSpeed.tilt st.ptzSpeed.zoom] := by
  have key : ∀ (pan tilt zoom : Int) (s1 s2 s3 : Option ℚ),
      (performPtz st env pan tilt zoom none s1 s2 s3 none).events.filter
          Event.isRelativeMove
        = [Event.relativeMove tok ((pan : ℚ) * st.ptzStep.pan) ((tilt : ℚ) * st.ptzStep.tilt)
            ((zoom : ℚ) * st.ptzStep.zoom) (s1.getD st.ptzSpeed.pan)
            (s2.getD st.ptzSpeed.tilt) (s3.getD st.ptzSpeed.zoom)] := by
    intro pan tilt zoom s1 s2 s3
    unfold performPtz
    rw [if_neg (by simp [hsvc])]
    dsimp only
    rw [hres]
    cases hrm : env.relativeMoveFault with
    | none =>
      dsimp only
      simp [List.filter_append, (obtainProfileToken_no_ptz_events st env.profilesResp).2.2.2.2,
        Event.isRelativeMove]
      exact ⟨mul_comm _ _, mul_comm _ _, mul_comm _ _⟩
    | some r =>
      dsimp only
      simp [List.filter_append, (obtainProfileToken_no_ptz_events st env.profilesResp).2.2.2.2,
        (classifyFault_no_ptz_events (obtainProfileToken st env.profilesResp).state r).2.2.2.2,
        Event.isRelativeMove]
      exact ⟨mul_comm _ _, mul_comm _ _, mul_comm _ _⟩
  refine ⟨key pan tilt zoom s1 s2 s3, ?_⟩
  have h2 := key 0 0 5 none none none
  have hn : handlePtz st env .absent .absent (.num 5) none none none none none
      = some (performPtz st env 0 0 5 none none none none none) := rfl
  rw [hn, Option.map_some', h2]
  norm_num

/-- Witness for C7: the zoom-5 scenario on the default session. -/
theorem relative_move_translation_speed_witness :
    (handlePtz stDefault envOk .absent .absent (.num 5) none none none
        none none).map (fun r => r.events.filter Event.isRelativeMove)
      = some [Event.relativeMove (some "MediaProfile000") 0 0
          (5 * stDefault.ptzStep.zoom)
          stDefault.ptzSpeed.pan stDefault.ptzSpeed.tilt stDefault.ptzSpeed.zoom] :=
  (relative_move_translation_speed stDefault envOk 0 0 0 none none none
    (some "MediaProfile000") rfl rfl).2

/-- Replacing the first occurrence of a pattern in a list that starts with
that pattern substitutes at position zero. -/
theorem replaceFirstList_self (old new l : List Char) :
    replaceFirstList old new (old ++ l) = new ++ l := by
  cases old with
  | nil =>
    cases l with
    | nil => simp [replaceFirstList]
    | cons c cs => simp [replaceFirstList, List.isPrefixOf]
  | cons o os =>
    have hpre : (o :: os).isPrefixOf (o :: (os ++ l)) = true := by
      rw [← List.cons_append]
      exact List.isPrefixOf_iff_prefix.mpr (List.prefix_append _ _)
    show replaceFirstList (o :: os) new (o :: (os ++ l)) = new ++ l
    rw [replaceFirstList, if_pos hpre]
    congr 1
    simp [List.drop_succ_cons, List.drop_left]

/-- Python's `uri.replace("rtsp://", new, 1)` on a URI that starts with
the `rtsp://` scheme substitutes `new` for the scheme. -/
theorem pyReplaceFirst_scheme (rest new : String) :
    pyReplaceFirst ("rtsp://" ++ rest) "rtsp://" new = new ++ rest := by
  unfold pyReplaceFirst
  have h1 : ("rtsp://" ++ rest).data = "rtsp://".data ++ rest.data := String.data_append _ _
  rw [h1, replaceFirstList_self]
  cases new with
  | mk ln =>
    cases rest with
    | mk lr => rfl

/-- C8: on success the stored stream source is exactly the camera-returned
URI with the real username and password inserted immediately after the
`rtsp://` scheme (the log-safe placeholder variant is a local value and
never reaches the state); on a protocol-level error the stream source is
left untouched (unset if it was unset) and no exception propagates. -/
theorem stream_uri_resolution (st : CameraState) (env : StreamEnv)
    (rest : String) (tok : Option String)
    (hres : (obtainProfileToken st env.profilesResp).result = .ok tok) :
    (env.streamUri = .ok ("rtsp://" ++ rest) →
      (obtainInputUri st env).state.input
        = some ("rtsp://" ++ st.username ++ ":" ++ st.password ++ "@" ++ rest)) ∧
    (∀ r : String, env.streamUri = .error r →
      (obtainInputUri st env).state.input = st.input ∧
      (obtainInputUri st env).raised = false) := by
  constructor
  · intro h
    unfold obtainInputUri
    dsimp only
    rw [hres]
    dsimp only
    rw [h]
    dsimp only
    rw [(obtainProfileToken_preserves st env.profilesResp).2.2.1,
      (obtainProfileToken_preserves st env.profilesResp).2.2.2,
      pyReplaceFirst_scheme]
  · intro r h
    unfold obtainInputUri
    dsimp only
    rw [hres]
    dsimp only
    rw [h]
    dsimp only
    exact ⟨(obtainProfileToken_preserves st env.profilesResp).2.1, rfl⟩

/-- Witness for C8: the default session against a camera returning
`rtsp://192.168.1.2:554/h264` stores the credential-embedded URI, and a
faulting `GetStreamUri` leaves the source unset. -/
theorem stream_uri_resolution_witness :
    (obtainInputUri stDefault streamEnvOk).state.input
      = some ("rtsp://" ++ stDefault.username ++ ":" ++ stDefault.password
          ++ "@" ++ "192.168.1.2:554/h264") ∧
    (obtainInputUri stDefault streamEnvFault).state.input = none := by
  constructor
  · exact (stream_uri_resolution stDefault streamEnvOk "192.168.1.2:554/h264"
      (some "MediaProfile000") rfl).1 (by rfl)
  · exact ((stream_uri_resolution stDefault streamEnvFault "" (some "MediaProfile000")
      rfl).2 "Unauthorized" rfl).1

/-- Stream-URI resolution never emits the clock-skew warning; the only
`warnSkew` events of an initialization come from the time check. -/
theorem obtainInputUri_no_warnSkew (st : CameraState) (env : StreamEnv) :
    Event.warnSkew ∉ (obtainInputUri st env).events := by
  unfold obtainInputUri
  cases h : (obtainProfileToken st env.profilesResp).result with
  | error e =>
    rcases obtainProfileToken_events st env.profilesResp with he | he | he <;> simp [h, he]
  | ok tok =>
    cases hs : env.streamUri with
    | error r =>
      rcases obtainProfileToken_events st env.profilesResp with he | he | he <;>
        simp [h, hs, he]
    | ok uri =>
      rcases obtainProfileToken_events st env.profilesResp with he | he | he <;>
        simp [h, hs, he]

/-- C9 (amended: the comparison is signed, `cam_date - system_date > 5`,
so only a camera clock AHEAD of the local clock by more than 5 seconds
triggers the warning; a camera clock behind by any amount does not): for
every camera-reported UTC time, the skew warning is emitted exactly when
the camera time exceeds the local time by more than 5 seconds, and the
rest of initialization — resulting state, subsequent events, and whether
it raises — is the same as if no device time had been reported (the skew
check never aborts initialization). -/
theorem clock_skew_warning (st : CameraState) (env : InitEnv) (cam : Int)
    (hdev : env.deviceTime = some cam) :
    (Event.warnSkew ∈ (asyncInitialize st env).events ↔ cam - env.systemTime > 5) ∧
    (asyncInitialize st env).state
      = (asyncInitialize st { env with deviceTime := none }).state ∧
    (asyncInitialize st env).events
      = timeCheckEvents env.deviceTime env.systemTime
        ++ (asyncInitialize st { env with deviceTime := none }).events ∧
    (asyncInitialize st env).raised
      = (asyncInitialize st { env with deviceTime := none }).raised := by
  have hu := obtainInputUri_no_warnSkew st env.streamEnv
  unfold asyncInitialize timeCheckEvents
  rw [hdev]
  dsimp only
  by_cases hraised : (obtainInputUri st env.streamEnv).raised <;>
    by_cases hptz : env.ptzCreateFault <;>
    by_cases hskew : cam - env.systemTime > 5 <;>
    simp [hraised, hptz, hskew, hu]

/-- Witness for C9 (amended): a camera clock 10 seconds ahead produces the
warning, and the resulting state equals that of a run with no reported
device time. -/
theorem clock_skew_warning_witness :
    Event.warnSkew ∈ (asyncInitialize stDefault ⟨some 20, 10, streamEnvFault, false⟩).events ∧
    (asyncInitialize stDefault ⟨some 20, 10, streamEnvFault, false⟩).state
      = (asyncInitialize stDefault ⟨none, 10, streamEnvFault, false⟩).state := by
  have h := clock_skew_warning stDefault ⟨some 20, 10, streamEnvFault, false⟩ 20 rfl
  exact ⟨h.1.mpr (by decide), h.2.1⟩

/-- C9 counterexample: a camera clock 10 seconds BEHIND the local clock —
a skew of magnitude 10 > 5 seconds — emits no warning, because the source
compares the signed difference `(cam_date - system_date).total_seconds()
> 5`, refuting the claim under its symmetric reading of "skew". -/
theorem clock_skew_counterexample :
    initEnvBehind.deviceTime = some 0 ∧ initEnvBehind.systemTime = 10 ∧
    ((0 : Int) - 10).natAbs > 5 ∧
    Event.warnSkew ∉ (asyncInitialize stDefault initEnvBehind).events := by
  refine ⟨rfl, rfl, by decide, ?_⟩
  decide
